import Mathlib

/-!
Shallow embedding of the Solana wallet tracker CLI (src/index.js, which holds
two near-identical source variants of the same program). Pure fragments of the
JavaScript become Lean functions; the WebSocket subscription loop becomes a
step function on an explicit state type driven by transport events; fallible
provider exchanges become explicit outcome types. Machine-number arithmetic in
the fee filter is modelled over the rationals with the exact constants of the
source.
-/

/-- SOL token mint address, CONFIG.SOL_MINT in both variants. -/
def SOL_MINT : String := "So11111111111111111111111111111111111111112"

/-- Minimum SOL amount for transaction consideration, CONFIG.MIN_SOL_AMOUNT = 0.001. -/
def MIN_SOL_AMOUNT : ℚ := 1 / 1000

/-- Divisor 1e9 used by the source to turn a lamport fee into SOL. -/
def LAMPORTS_PER_SOL : ℚ := 1000000000

/-- Delay in milliseconds passed to setTimeout by the WebSocket close handler
(5000 ms, i.e. five seconds, in both variants). -/
def RECONNECT_DELAY_MS : Nat := 5000

/-- Hard-coded limit in the request params of fetchRecentTransactionSignatures. -/
def FETCH_RECENT_LIMIT : Nat := 1

/-- Default value of the -l, --limit option of the fetch command. -/
def FETCH_DEFAULT_LIMIT : Int := 5

/-- One record of a getSignaturesForAddress response result array. The code
reads only the signature field; blockTime stands for the provider ordering key
(newest first) and the remaining provider fields are unused by the program. -/
structure SigRecord where
  signature : String
  blockTime : Int
  deriving DecidableEq, Repr

/-- Outcome of one JSON-RPC getSignaturesForAddress exchange as observed by the
calling code: the fetch or the body parse can throw (transportError), the
parsed body can lack a usable result array (missingResult), or it carries a
list of records (ok). -/
inductive RpcResponse where
  | transportError
  | missingResult
  | ok (records : List SigRecord)
  deriving DecidableEq, Repr

/-- Embedding of fetchRecentTransactionSignatures (identical in both variants):
on success it returns result.map(tx => tx.signature); any failure, either a
network throw or a body without a result array (where result.map throws), is
caught, logged, and yields the empty list. The Bool records whether the catch
branch logged a diagnostic. The function is total: it never propagates an
exception to its caller. -/
def fetchRecentTransactionSignatures : RpcResponse → List String × Bool
  | .ok records => (records.map SigRecord.signature, false)
  | .transportError => ([], true)
  | .missingResult => ([], true)

/-- An inbound WebSocket frame as seen by the message handler: either the data
fails JSON.parse (unparseable), or it parses to an object with an optional
method field; paramsOk records whether message.params.result.value is
reachable (only the second variant dereferences it). -/
inductive InboundMessage where
  | unparseable
  | parsed (method : Option String) (paramsOk : Bool)
  deriving DecidableEq, Repr

/-- Observable side effects of the subscription loop code paths. The
closeConnection constructor exists so that its absence can be stated: no code
path of either variant ever closes the socket itself. -/
inductive LoopAction where
  | sendSubscribe
  | startHeartbeat
  | dispatch (s : String)
  | logError
  | logNewTransaction (s : String)
  | logAccountUpdated
  | logDisconnected
  | scheduleReconnect (delayMs : Nat)
  | connect
  | closeConnection
  deriving DecidableEq, Repr

/-- Connection state of the subscription loop of setupWebSocket. -/
inductive LoopState where
  | connecting
  | subscribed
  | reconnecting
  deriving DecidableEq, Repr

/-- Transport events delivered to the handlers registered by setupWebSocket.
A message event carries the parsed shape of the frame and the outcome of the
getSignaturesForAddress exchange the handler performs for it. -/
inductive WsEvent where
  | opened
  | message (m : InboundMessage) (resp : RpcResponse)
  | errored
  | closed
  | timerFired
  deriving DecidableEq, Repr

/-- Message handler of the first variant (ws.on "message"): on a parse failure
the catch logs and returns; on an accountNotification it fetches the recent
signatures and, when the list is nonempty, logs and dispatches exactly its
head to onTransaction; other methods are ignored. The handler is total, so no
exception escapes it. -/
def handleMessageV1 (m : InboundMessage) (resp : RpcResponse) : List LoopAction :=
  match m with
  | .unparseable => [.logError]
  | .parsed method _ =>
    if method = some "accountNotification" then
      let fr := fetchRecentTransactionSignatures resp
      let fetchLog : List LoopAction := if fr.2 then [.logError] else []
      match fr.1 with
      | [] => fetchLog
      | s :: _ => fetchLog ++ [.logNewTransaction s, .dispatch s]
    else []

/-- Message handler of the second variant: identical to the first except that
it first logs message.params.result.value; when that path is absent the
dereference throws, the catch logs, and nothing is dispatched. -/
def handleMessageV2 (m : InboundMessage) (resp : RpcResponse) : List LoopAction :=
  match m with
  | .unparseable => [.logError]
  | .parsed method paramsOk =>
    if method = some "accountNotification" then
      if paramsOk then
        let fr := fetchRecentTransactionSignatures resp
        let fetchLog : List LoopAction := if fr.2 then [.logError] else []
        match fr.1 with
        | [] => .logAccountUpdated :: fetchLog
        | s :: _ => .logAccountUpdated :: (fetchLog ++ [.logNewTransaction s, .dispatch s])
      else [.logError]
    else []

/-- One step of the setupWebSocket event loop, parameterized by the message
handler of the variant. From the source: on open the code sends exactly one
accountSubscribe request and starts the heartbeat interval; on message it runs
the handler; on error it only logs; on close it logs and schedules exactly one
reconnect after RECONNECT_DELAY_MS; when that timer fires, setupWebSocket is
invoked again, beginning a new connection attempt. -/
def setupWebSocketStep (handler : InboundMessage → RpcResponse → List LoopAction)
    (st : LoopState) (e : WsEvent) : LoopState × List LoopAction :=
  match e with
  | .opened =>
      if st = .connecting then (.subscribed, [.sendSubscribe, .startHeartbeat])
      else (st, [])
  | .message m resp => (st, handler m resp)
  | .errored => (st, [.logError])
  | .closed => (.reconnecting, [.logDisconnected, .scheduleReconnect RECONNECT_DELAY_MS])
  | .timerFired =>
      if st = .reconnecting then (.connecting, [.connect])
      else (st, [])

/-- Run of the subscription loop over a sequence of transport events,
accumulating the emitted actions in order. -/
def runLoop (handler : InboundMessage → RpcResponse → List LoopAction) :
    LoopState → List WsEvent → LoopState × List LoopAction
  | st, [] => (st, [])
  | st, e :: es =>
      ((runLoop handler (setupWebSocketStep handler st e).1 es).1,
       (setupWebSocketStep handler st e).2 ++
         (runLoop handler (setupWebSocketStep handler st e).1 es).2)

/-- Signatures passed to the downstream onTransaction handler, in order. -/
def dispatchesOf (as : List LoopAction) : List String :=
  as.filterMap fun a => match a with | .dispatch s => some s | _ => none

/-- Number of reconnect attempts scheduled in an action sequence. -/
def reconnectCount (as : List LoopAction) : Nat :=
  (as.filter fun a => match a with | .scheduleReconnect _ => true | _ => false).length

/-- A well-formed accountNotification frame. -/
def notifMessage : InboundMessage := .parsed (some "accountNotification") true

/-- Event sequence of n transport failures, each followed by the reconnect
timer firing and the new connection opening. -/
def closeReconnectCycle : Nat → List WsEvent
  | 0 => []
  | n + 1 => WsEvent.closed :: WsEvent.timerFired :: WsEvent.opened :: closeReconnectCycle n

/-- One side of a trade as produced by the external DEX parser: a token mint
with amount and price. -/
structure TokenAmount where
  mint : String
  amount : ℚ
  price : ℚ
  deriving DecidableEq, Repr

/-- A trade extracted by dexParser.parseTrades. -/
structure Trade where
  inputToken : TokenAmount
  outputToken : TokenAmount
  deriving DecidableEq, Repr

/-- Meta of a parsed transaction: fee in lamports and the error flag. -/
structure TxMeta where
  fee : Nat
  err : Bool
  deriving DecidableEq, Repr

/-- A parsed transaction as returned by connection.getParsedTransaction. The
trades field holds the list the external DEX parser extracts from this
transaction, kept alongside because the code treats the parser as an oracle. -/
structure ParsedTx where
  meta : TxMeta
  blockTime : Int
  trades : List Trade
  deriving DecidableEq, Repr

/-- Buy test of parseTransaction: trade.inputToken.mint === CONFIG.SOL_MINT. -/
def isBuy (trade : Trade) : Bool := trade.inputToken.mint = SOL_MINT

/-- Transaction type string computed from isBuy in the first variant. -/
def transactionType (trade : Trade) : String :=
  if isBuy trade then "BUY" else "SELL"

/-- The fields of a rendered transaction card that the claims reason about:
the buy or sell tag, both mints, and the signature. -/
structure TransactionCard where
  cardType : String
  inputMint : String
  outputMint : String
  signature : String
  deriving DecidableEq, Repr

/-- Embedding of createTransactionCard for one trade of a transaction. -/
def createTransactionCard (s : String) (trade : Trade) : TransactionCard :=
  ⟨transactionType trade, trade.inputToken.mint, trade.outputToken.mint, s⟩

/-- How the spinner of parseTransaction ends: spinner.fail, spinner.info or
spinner.succeed. -/
inductive SpinnerEnd where
  | fail
  | info
  | succeed
  deriving DecidableEq, Repr

/-- Outcome of one parseTransaction call: an invalid signature returns before
the spinner starts; a missing transaction fails the spinner; a fee below the
threshold ends the spinner with an informational skip; otherwise one card per
extracted trade is printed and the spinner succeeds. -/
inductive ParseOutcome where
  | invalidSignature
  | txNotFound
  | lowValueSkipped
  | rendered (cards : List TransactionCard)
  deriving DecidableEq, Repr

/-- Result of parseTransaction: its outcome together with whether
dexParser.parseTrades was invoked at all. -/
structure ParseResult where
  outcome : ParseOutcome
  tradesParsed : Bool
  deriving DecidableEq, Repr

/-- Embedding of parseTransaction (first variant): guards on the signature,
on the transaction lookup, then on tx.meta.fee / 1e9 < CONFIG.MIN_SOL_AMOUNT,
and only past that filter parses trades and prints one card per trade. The
second argument is the result of the getParsedTransaction lookup. -/
def parseTransaction (sig : Option String) (tx : Option ParsedTx) : ParseResult :=
  match sig with
  | none => ⟨.invalidSignature, false⟩
  | some s =>
    match tx with
    | none => ⟨.txNotFound, false⟩
    | some t =>
      if (t.meta.fee : ℚ) / LAMPORTS_PER_SOL < MIN_SOL_AMOUNT then
        ⟨.lowValueSkipped, false⟩
      else
        ⟨.rendered (t.trades.map (createTransactionCard s)), true⟩

/-- Cards printed for an outcome: only the rendered outcome prints any. -/
def cardsOf : ParseOutcome → List TransactionCard
  | .rendered cards => cards
  | _ => []

/-- Spinner ending of an outcome; the invalid-signature path returns before a
spinner exists. The low-value skip ends with spinner.info, an informational
message, not a failure. -/
def spinnerEndOf : ParseOutcome → Option SpinnerEnd
  | .invalidSignature => none
  | .txNotFound => some .fail
  | .lowValueSkipped => some .info
  | .rendered _ => some .succeed

/-- Render trace events of the fetch loop: each signature produces a start
when its parseTransaction call begins and a finish when that call returns
(having completed or failed, both variants catch internally). -/
inductive RenderEvent where
  | start (s : String)
  | finish (s : String)
  deriving DecidableEq, Repr

/-- Trace of the render loop "for (const tx of signatures) await
parseTransaction(tx.signature, wallet)": strictly sequential, one signature at
a time, in list order, because each call is awaited before the next begins. -/
def fetchRenderTrace : List String → List RenderEvent
  | [] => []
  | s :: rest => .start s :: .finish s :: fetchRenderTrace rest

/-- Signatures whose render has started, in trace order. -/
def startsOf (tr : List RenderEvent) : List String :=
  tr.filterMap fun e => match e with | .start s => some s | _ => none

/-- Signatures whose render has finished, in trace order. -/
def finishesOf (tr : List RenderEvent) : List String :=
  tr.filterMap fun e => match e with | .finish s => some s | _ => none

/-- Terminal outcome of fetchTransactions: the catch branch on a network
throw, the no-transactions message when the result array is absent or empty,
or a success message naming how many signatures were fetched. -/
inductive FetchOutcome where
  | errorLogged
  | noTransactions
  | fetched (n : Nat)
  deriving DecidableEq, Repr

/-- Embedding of fetchTransactions: a transport throw is caught and logged
with no renders; a body whose result array is absent (signatures?.length is
falsy) or empty reports no transactions found; otherwise every returned
signature is rendered sequentially in provider order. -/
def fetchTransactions (resp : RpcResponse) : FetchOutcome × List RenderEvent :=
  match resp with
  | .transportError => (.errorLogged, [])
  | .missingResult => (.noTransactions, [])
  | .ok [] => (.noTransactions, [])
  | .ok records =>
      (.fetched records.length, fetchRenderTrace (records.map SigRecord.signature))

/-- Limit the fetch command action passes to fetchTransactions:
Math.min(options.limit, 100), where options.limit defaults to 5. There is no
lower clamp in the source. -/
def fetchActionLimit (optLimit : Option Int) : Int :=
  min (optLimit.getD FETCH_DEFAULT_LIMIT) 100

/-- Modelled from the spec: the limit the spec describes, N clamped to the
interval [1,100] with default 5. Stated only for comparison against
fetchActionLimit, the limit the source computes. -/
def specClampedLimit (optLimit : Option Int) : Int :=
  match optLimit with
  | none => FETCH_DEFAULT_LIMIT
  | some n => max 1 (min n 100)

/-- Steps observable during process startup, before any command runs. -/
inductive StartupStep where
  | logDiagnostic
  | exitProcess (code : Nat)
  | initConnection
  | providerCall
  deriving DecidableEq, Repr

/-- The JavaScript falsiness test !CONFIG.HELIUS_API_KEY: true when the
environment variable is absent or the empty string. -/
def isMissingKey (key : Option String) : Bool :=
  key = none || key = some ""

/-- Startup of the first variant: CONFIG is built and the connection is
initialized immediately; no validation of the API key exists in that variant. -/
def startupV1 (_key : Option String) : List StartupStep :=
  [.initConnection]

/-- Startup of the second variant: the validation block after CONFIG logs a
diagnostic and calls process.exit(1) when the key is missing, before the
connection is initialized; otherwise startup proceeds. -/
def startupV2 (key : Option String) : List StartupStep :=
  if isMissingKey key then [.logDiagnostic, .exitProcess 1]
  else [.initConnection]

/-- Whether a startup trace ever exits the process. -/
def hasExit (steps : List StartupStep) : Bool :=
  steps.any fun st => match st with | .exitProcess _ => true | _ => false
/-- Guard of the notification branch of the first variant message handler:
the parsed frame has method accountNotification. -/
def isAccountNotifV1 : InboundMessage → Bool
  | .parsed method _ => method = some "accountNotification"
  | .unparseable => false

/-- Guard of the dispatching branch of the second variant message handler:
method is accountNotification and message.params.result.value is reachable. -/
def isAccountNotifV2 : InboundMessage → Bool
  | .parsed method paramsOk => (method = some "accountNotification") && paramsOk
  | .unparseable => false


theorem dispatchesOf_append (as bs : List LoopAction) :
    dispatchesOf (as ++ bs) = dispatchesOf as ++ dispatchesOf bs := by
  simp [dispatchesOf, List.filterMap_append]

theorem reconnectCount_append (as bs : List LoopAction) :
    reconnectCount (as ++ bs) = reconnectCount as + reconnectCount bs := by
  simp [reconnectCount, List.filter_append]

theorem startsOf_fetchRenderTrace (l : List String) :
    startsOf (fetchRenderTrace l) = l := by
  induction l with
  | nil => rfl
  | cons s rest ih => simp [fetchRenderTrace, startsOf, List.filterMap_cons] at ih ⊢; exact ih

theorem finishesOf_fetchRenderTrace (l : List String) :
    finishesOf (fetchRenderTrace l) = l := by
  induction l with
  | nil => rfl
  | cons s rest ih => simp [fetchRenderTrace, finishesOf, List.filterMap_cons] at ih ⊢; exact ih

theorem fetchTransactions_starts (records : List SigRecord) :
    startsOf (fetchTransactions (.ok records)).2 = records.map SigRecord.signature := by
  cases records with
  | nil => rfl
  | cons r rest => simp [fetchTransactions, startsOf_fetchRenderTrace]

/-- C9: the renderer classifies a parsed trade as a buy exactly when the SOL
mint is the input side mint of the trade, and as a sell otherwise. -/
theorem buySellByInputMint (trade : Trade) :
    (transactionType trade = "BUY" ↔ trade.inputToken.mint = SOL_MINT) ∧
    (transactionType trade = "SELL" ↔ trade.inputToken.mint ≠ SOL_MINT) := by
  by_cases h : trade.inputToken.mint = SOL_MINT <;>
    simp [transactionType, isBuy, h]

/-- Witness for C9 on one concrete buy trade and one concrete sell trade. -/
theorem buySellByInputMint_witness :
    transactionType ⟨⟨SOL_MINT, 1, 2⟩, ⟨"M", 3, 4⟩⟩ = "BUY" ∧
    transactionType ⟨⟨"M", 3, 4⟩, ⟨SOL_MINT, 1, 2⟩⟩ = "SELL" :=
  ⟨(buySellByInputMint ⟨⟨SOL_MINT, 1, 2⟩, ⟨"M", 3, 4⟩⟩).1.mpr rfl,
   (buySellByInputMint ⟨⟨"M", 3, 4⟩, ⟨SOL_MINT, 1, 2⟩⟩).2.mpr (by decide)⟩

/-- C7: a found transaction whose fee is below the configured minimum
threshold is skipped entirely: trade parsing is never attempted, no card is
printed, and the skip ends the spinner with an informational message rather
than a failure. -/
theorem lowFee_skippedEntirely (s : String) (t : ParsedTx)
    (h : (t.meta.fee : ℚ) / LAMPORTS_PER_SOL < MIN_SOL_AMOUNT) :
    parseTransaction (some s) (some t) = ⟨.lowValueSkipped, false⟩ ∧
    cardsOf (parseTransaction (some s) (some t)).outcome = [] ∧
    spinnerEndOf (parseTransaction (some s) (some t)).outcome = some .info ∧
    spinnerEndOf (parseTransaction (some s) (some t)).outcome ≠ some .fail := by
  have e : parseTransaction (some s) (some t) = ⟨.lowValueSkipped, false⟩ := by
    simp only [parseTransaction, if_pos h]
  refine ⟨e, ?_, ?_, ?_⟩ <;> rw [e] <;> decide

theorem fee5000_below_min :
    ((5000 : ℕ) : ℚ) / LAMPORTS_PER_SOL < MIN_SOL_AMOUNT := by
  norm_num [LAMPORTS_PER_SOL, MIN_SOL_AMOUNT]

/-- Witness for C7 at the typical 5000 lamport fee, with a trade present that
would otherwise be rendered. -/
theorem lowFee_skippedEntirely_witness :
    parseTransaction (some "sig1")
        (some ⟨⟨5000, false⟩, 0, [⟨⟨SOL_MINT, 1, 2⟩, ⟨"M", 3, 4⟩⟩]⟩)
      = ⟨.lowValueSkipped, false⟩ :=
  (lowFee_skippedEntirely "sig1"
      ⟨⟨5000, false⟩, 0, [⟨⟨SOL_MINT, 1, 2⟩, ⟨"M", 3, 4⟩⟩]⟩ fee5000_below_min).1

/-- C8: within a fetch run the renders are strictly sequential in provider
order: the started signatures are exactly the provider list in order, every
started render finishes, and whenever a render starts, every render started
earlier in the trace has already finished. -/
theorem fetch_rendersSequentially (sigs : List String) :
    startsOf (fetchRenderTrace sigs) = sigs ∧
    finishesOf (fetchRenderTrace sigs) = sigs ∧
    ∀ k s, (fetchRenderTrace sigs)[k]? = some (.start s) →
      (startsOf ((fetchRenderTrace sigs).take k)).length
        = (finishesOf ((fetchRenderTrace sigs).take k)).length := by
  refine ⟨startsOf_fetchRenderTrace sigs, finishesOf_fetchRenderTrace sigs, ?_⟩
  induction sigs with
  | nil => intro k s h; simp [fetchRenderTrace] at h
  | cons a rest ih =>
    intro k s h
    match k with
    | 0 => simp [startsOf, finishesOf]
    | 1 => simp [fetchRenderTrace] at h
    | Nat.succ (Nat.succ k') =>
      have h' : (fetchRenderTrace rest)[k']? = some (.start s) := by
        simpa [fetchRenderTrace] using h
      have hk := ih k' s h'
      simp [fetchRenderTrace, startsOf, finishesOf, List.filterMap_cons] at hk ⊢
      exact hk

/-- Witness for C8 on the two-signature list. -/
theorem fetch_rendersSequentially_witness :
    startsOf (fetchRenderTrace ["A", "B"]) = ["A", "B"] ∧
    (startsOf ((fetchRenderTrace ["A", "B"]).take 2)).length
      = (finishesOf ((fetchRenderTrace ["A", "B"]).take 2)).length :=
  ⟨(fetch_rendersSequentially ["A", "B"]).1,
   (fetch_rendersSequentially ["A", "B"]).2.2 2 "B" rfl⟩

theorem handleMessageV1_unparseable (resp : RpcResponse) :
    handleMessageV1 .unparseable resp = [.logError] := rfl

theorem handleMessageV1_notNotif (method : Option String) (pok : Bool)
    (resp : RpcResponse) (h : method ≠ some "accountNotification") :
    handleMessageV1 (.parsed method pok) resp = [] := by
  simp [handleMessageV1, h]

theorem handleMessageV1_notif_ok_nil (pok : Bool) :
    handleMessageV1 (.parsed (some "accountNotification") pok) (.ok []) = [] := rfl

theorem handleMessageV1_notif_ok_cons (pok : Bool) (r : SigRecord) (rest : List SigRecord) :
    handleMessageV1 (.parsed (some "accountNotification") pok) (.ok (r :: rest))
      = [.logNewTransaction r.signature, .dispatch r.signature] := rfl

theorem handleMessageV1_notif_transport (pok : Bool) :
    handleMessageV1 (.parsed (some "accountNotification") pok) .transportError
      = [.logError] := rfl

theorem handleMessageV1_notif_missing (pok : Bool) :
    handleMessageV1 (.parsed (some "accountNotification") pok) .missingResult
      = [.logError] := rfl

theorem handleMessageV2_unparseable (resp : RpcResponse) :
    handleMessageV2 .unparseable resp = [.logError] := rfl

theorem handleMessageV2_notNotif (method : Option String) (pok : Bool)
    (resp : RpcResponse) (h : method ≠ some "accountNotification") :
    handleMessageV2 (.parsed method pok) resp = [] := by
  simp [handleMessageV2, h]

theorem handleMessageV2_badParams (resp : RpcResponse) :
    handleMessageV2 (.parsed (some "accountNotification") false) resp = [.logError] := rfl

theorem handleMessageV2_notif_ok_nil :
    handleMessageV2 (.parsed (some "accountNotification") true) (.ok [])
      = [.logAccountUpdated] := rfl

theorem handleMessageV2_notif_ok_cons (r : SigRecord) (rest : List SigRecord) :
    handleMessageV2 (.parsed (some "accountNotification") true) (.ok (r :: rest))
      = [.logAccountUpdated, .logNewTransaction r.signature, .dispatch r.signature] := rfl

theorem handleMessageV2_notif_transport :
    handleMessageV2 (.parsed (some "accountNotification") true) .transportError
      = [.logAccountUpdated, .logError] := rfl

theorem handleMessageV2_notif_missing :
    handleMessageV2 (.parsed (some "accountNotification") true) .missingResult
      = [.logAccountUpdated, .logError] := rfl

/-- C5 counterexample: a parseable inbound frame of unexpected shape, here
one whose method field is the unrelated string totally, is a malformed
message in the sense of the claim, yet the first variant handler produces no
log at all: it falls through the accountNotification guard and is silently
ignored, refuting that every malformed message is logged. The loop does stay
subscribed. -/
theorem unexpectedShape_ignoredWithoutLog :
    handleMessageV1 (.parsed (some "totally") true) (.ok []) = [] ∧
    LoopAction.logError ∉ handleMessageV1 (.parsed (some "totally") true) (.ok []) ∧
    (setupWebSocketStep handleMessageV1 .subscribed
        (.message (.parsed (some "totally") true) (.ok []))).1 = .subscribed := by
  refine ⟨by decide, by decide, rfl⟩

/-- C5 amended: whatever inbound frame arrives, well formed or not, the
message handler of the first variant leaves the loop in the subscribed state,
never closes the socket, schedules no reconnect and opens no new connection,
and the handler is a total function, so no exception escapes it; but only a
frame that fails JSON.parse is logged by the catch branch, while parseable
frames of unexpected shape are ignored silently. -/
theorem malformedMessage_keepsSubscribed (m : InboundMessage) (resp : RpcResponse) :
    (setupWebSocketStep handleMessageV1 .subscribed (.message m resp)).1 = .subscribed ∧
    (∀ d : Nat, LoopAction.scheduleReconnect d ∉ handleMessageV1 m resp) ∧
    LoopAction.closeConnection ∉ handleMessageV1 m resp ∧
    LoopAction.connect ∉ handleMessageV1 m resp ∧
    (m = .unparseable → LoopAction.logError ∈ handleMessageV1 m resp) := by
  refine ⟨rfl, ?_, ?_, ?_, ?_⟩
  case _ =>
    intro d
    cases m with
    | unparseable => simp [handleMessageV1_unparseable]
    | parsed method pok =>
      by_cases hm : method = some "accountNotification"
      · subst hm
        cases resp with
        | transportError => simp [handleMessageV1_notif_transport]
        | missingResult => simp [handleMessageV1_notif_missing]
        | ok records =>
          cases records with
          | nil => simp [handleMessageV1_notif_ok_nil]
          | cons r rest => simp [handleMessageV1_notif_ok_cons]
      · simp [handleMessageV1_notNotif _ _ _ hm]
  case _ =>
    cases m with
    | unparseable => simp [handleMessageV1_unparseable]
    | parsed method pok =>
      by_cases hm : method = some "accountNotification"
      · subst hm
        cases resp with
        | transportError => simp [handleMessageV1_notif_transport]
        | missingResult => simp [handleMessageV1_notif_missing]
        | ok records =>
          cases records with
          | nil => simp [handleMessageV1_notif_ok_nil]
          | cons r rest => simp [handleMessageV1_notif_ok_cons]
      · simp [handleMessageV1_notNotif _ _ _ hm]
  case _ =>
    cases m with
    | unparseable => simp [handleMessageV1_unparseable]
    | parsed method pok =>
      by_cases hm : method = some "accountNotification"
      · subst hm
        cases resp with
        | transportError => simp [handleMessageV1_notif_transport]
        | missingResult => simp [handleMessageV1_notif_missing]
        | ok records =>
          cases records with
          | nil => simp [handleMessageV1_notif_ok_nil]
          | cons r rest => simp [handleMessageV1_notif_ok_cons]
      · simp [handleMessageV1_notNotif _ _ _ hm]
  case _ =>
    rintro rfl
    simp [handleMessageV1_unparseable]

/-- Witness for C5 at an unparseable frame during a transport failure of the
follow-up fetch. -/
theorem malformedMessage_keepsSubscribed_witness :
    (setupWebSocketStep handleMessageV1 .subscribed
        (.message .unparseable .transportError)).1 = .subscribed ∧
    LoopAction.logError ∈ handleMessageV1 .unparseable .transportError :=
  ⟨(malformedMessage_keepsSubscribed .unparseable .transportError).1,
   (malformedMessage_keepsSubscribed .unparseable .transportError).2.2.2.2 rfl⟩

theorem length_toList_le_one (o : Option String) : o.toList.length ≤ 1 := by
  cases o <;> simp [Option.toList]

theorem dispatchesOf_handleMessageV1 (m : InboundMessage) (resp : RpcResponse) :
    dispatchesOf (handleMessageV1 m resp)
      = if isAccountNotifV1 m then (fetchRecentTransactionSignatures resp).1.head?.toList
        else [] := by
  cases m with
  | unparseable => rfl
  | parsed method pok =>
    by_cases hm : method = some "accountNotification"
    · subst hm
      cases resp with
      | transportError => rfl
      | missingResult => rfl
      | ok records =>
        cases records with
        | nil => rfl
        | cons r rest => rfl
    · simp [handleMessageV1, isAccountNotifV1, hm, dispatchesOf]

theorem dispatchesOf_handleMessageV2 (m : InboundMessage) (resp : RpcResponse) :
    dispatchesOf (handleMessageV2 m resp)
      = if isAccountNotifV2 m then (fetchRecentTransactionSignatures resp).1.head?.toList
        else [] := by
  cases m with
  | unparseable => rfl
  | parsed method pok =>
    by_cases hm : method = some "accountNotification"
    · subst hm
      cases pok with
      | false => rfl
      | true =>
        cases resp with
        | transportError => rfl
        | missingResult => rfl
        | ok records =>
          cases records with
          | nil => rfl
          | cons r rest => rfl
    · simp [handleMessageV2, isAccountNotifV2, hm, dispatchesOf]

/-- C10: one inbound message invokes the downstream handler at most once, only
with the first element of the fetched signature list, and not at all when the
fetch yields the empty list; this holds in both variants. -/
theorem notificationDispatchesAtMostHead (m : InboundMessage) (resp : RpcResponse) :
    (dispatchesOf (handleMessageV1 m resp)).length ≤ 1 ∧
    (dispatchesOf (handleMessageV2 m resp)).length ≤ 1 ∧
    ((fetchRecentTransactionSignatures resp).1 = [] →
       dispatchesOf (handleMessageV1 m resp) = [] ∧
       dispatchesOf (handleMessageV2 m resp) = []) ∧
    (∀ s, s ∈ dispatchesOf (handleMessageV1 m resp) →
       (fetchRecentTransactionSignatures resp).1.head? = some s) ∧
    (∀ s, s ∈ dispatchesOf (handleMessageV2 m resp) →
       (fetchRecentTransactionSignatures resp).1.head? = some s) := by
  have h1 := dispatchesOf_handleMessageV1 m resp
  have h2 := dispatchesOf_handleMessageV2 m resp
  refine ⟨?_, ?_, ?_, ?_, ?_⟩
  · rw [h1]
    split
    · exact length_toList_le_one _
    · simp
  · rw [h2]
    split
    · exact length_toList_le_one _
    · simp
  · intro he
    rw [h1, h2, he]
    constructor <;> split <;> simp [Option.toList]
  · intro s hs
    rw [h1] at hs
    by_cases hb : isAccountNotifV1 m = true
    · rw [if_pos hb] at hs
      cases hh : (fetchRecentTransactionSignatures resp).1.head? with
      | none => rw [hh] at hs; simp [Option.toList] at hs
      | some a => rw [hh] at hs; simp [Option.toList] at hs; rw [hs]
    · rw [if_neg hb] at hs
      simp at hs
  · intro s hs
    rw [h2] at hs
    by_cases hb : isAccountNotifV2 m = true
    · rw [if_pos hb] at hs
      cases hh : (fetchRecentTransactionSignatures resp).1.head? with
      | none => rw [hh] at hs; simp [Option.toList] at hs
      | some a => rw [hh] at hs; simp [Option.toList] at hs; rw [hs]
    · rw [if_neg hb] at hs
      simp at hs

/-- Witness for C10: a failed fetch dispatches nothing, and a successful fetch
dispatches exactly the head signature. -/
theorem notificationDispatchesAtMostHead_witness :
    dispatchesOf (handleMessageV1 notifMessage .transportError) = [] ∧
    (fetchRecentTransactionSignatures (.ok [⟨"A", 3⟩, ⟨"B", 2⟩])).1.head? = some "A" :=
  ⟨((notificationDispatchesAtMostHead notifMessage .transportError).2.2.1 rfl).1,
   (notificationDispatchesAtMostHead notifMessage (.ok [⟨"A", 3⟩, ⟨"B", 2⟩])).2.2.2.1 "A"
     (by decide)⟩

/-- C1 counterexample: in one session, two consecutive notifications that
resolve to the same latest signature A both dispatch it to the downstream
handler, so the handler is invoked twice for that signature, not at most
once; no last-seen signature is kept anywhere in the loop. -/
theorem track_sameSignatureDispatchedTwice :
    dispatchesOf ((runLoop handleMessageV1 .subscribed
        [.message notifMessage (.ok [⟨"A", 0⟩]), .message notifMessage (.ok [⟨"A", 0⟩])]).2)
      = ["A", "A"] ∧
    (dispatchesOf ((runLoop handleMessageV1 .subscribed
        [.message notifMessage (.ok [⟨"A", 0⟩]),
         .message notifMessage (.ok [⟨"A", 0⟩])]).2)).count "A" = 2 := by
  constructor <;> rfl

/-- C1 amended: the subscription loop keeps no last-seen signature and applies
no cross-notification de-duplication: every notification whose fetch returns
a nonempty list dispatches exactly the head signature of that list, so n
consecutive notifications resolving to the same latest signature s dispatch s
exactly n times, once per notification, and the loop stays subscribed. -/
theorem track_noDedup_acrossNotifications (n : Nat) (s : String) (bt : Int)
    (rest : List SigRecord) :
    (runLoop handleMessageV1 .subscribed
        (List.replicate n (.message notifMessage (.ok (⟨s, bt⟩ :: rest))))).1
      = .subscribed ∧
    dispatchesOf ((runLoop handleMessageV1 .subscribed
        (List.replicate n (.message notifMessage (.ok (⟨s, bt⟩ :: rest))))).2)
      = List.replicate n s := by
  induction n with
  | zero => exact ⟨rfl, rfl⟩
  | succ k ih =>
    obtain ⟨ih1, ih2⟩ := ih
    have hstep : setupWebSocketStep handleMessageV1 .subscribed
        (.message notifMessage (.ok (⟨s, bt⟩ :: rest)))
        = (.subscribed, [.logNewTransaction s, .dispatch s]) := rfl
    rw [List.replicate_succ, List.replicate_succ]
    constructor
    · simp only [runLoop, hstep]
      exact ih1
    · simp only [runLoop, hstep]
      rw [dispatchesOf_append, ih2]
      rfl

theorem runLoop_cycle_succ (k : Nat) :
    runLoop handleMessageV1 .subscribed (closeReconnectCycle (k + 1))
      = ((runLoop handleMessageV1 .subscribed (closeReconnectCycle k)).1,
         [.logDisconnected, .scheduleReconnect RECONNECT_DELAY_MS] ++
           ([.connect] ++ ([.sendSubscribe, .startHeartbeat] ++
             (runLoop handleMessageV1 .subscribed (closeReconnectCycle k)).2))) := rfl

/-- C4: every transport close makes the loop schedule exactly one reconnect
after the constant RECONNECT_DELAY_MS delay (5000 ms, the fixed five-unit
delay; no backoff), independent of the state and of the variant handler, and
n repeated close-reconnect cycles from the subscribed state produce exactly n
reconnect attempts and leave the loop subscribed again: no number of
transport failures terminates the loop. -/
theorem close_schedulesSingleReconnect_forever :
    (∀ (handler : InboundMessage → RpcResponse → List LoopAction) (st : LoopState),
       setupWebSocketStep handler st .closed
         = (.reconnecting, [.logDisconnected, .scheduleReconnect RECONNECT_DELAY_MS])) ∧
    RECONNECT_DELAY_MS = 5000 ∧
    (∀ n : Nat,
       (runLoop handleMessageV1 .subscribed (closeReconnectCycle n)).1 = .subscribed ∧
       reconnectCount (runLoop handleMessageV1 .subscribed (closeReconnectCycle n)).2 = n) := by
  refine ⟨fun handler st => rfl, rfl, ?_⟩
  intro n
  induction n with
  | zero => exact ⟨rfl, rfl⟩
  | succ k ih =>
    obtain ⟨ih1, ih2⟩ := ih
    constructor
    · rw [runLoop_cycle_succ]
      exact ih1
    · rw [runLoop_cycle_succ]
      rw [reconnectCount_append, reconnectCount_append, reconnectCount_append, ih2]
      have c1 : reconnectCount
          [.logDisconnected, .scheduleReconnect RECONNECT_DELAY_MS] = 1 := rfl
      have c2 : reconnectCount [.connect] = 0 := rfl
      have c3 : reconnectCount [.sendSubscribe, .startHeartbeat] = 0 := rfl
      rw [c1, c2, c3]
      omega

/-- C2 counterexample: with the option value 0 the limit actually used is
min(0, 100) = 0, not the claimed clamp of 0 into [1,100], which is 1: the
source applies only the upper bound, never the lower one. -/
theorem fetch_limit_zero_notClamped :
    fetchActionLimit (some 0) = 0 ∧ specClampedLimit (some 0) = 1 ∧
    fetchActionLimit (some 0) ≠ specClampedLimit (some 0) := by
  refine ⟨by decide, by decide, by decide⟩

/-- C2 amended: the limit used by the fetch command is min(N, 100) with no
lower clamp, equal to the clamped value exactly on N in [1,100], and 5 when
the option is absent; when the provider honors the requested limit, at most
that many records are rendered, in provider-returned order. -/
theorem fetch_limit_upperClampOnly (n : Int) (records : List SigRecord)
    (hhon : (records.length : Int) ≤ fetchActionLimit (some n)) :
    fetchActionLimit (some n) = min n 100 ∧
    fetchActionLimit none = FETCH_DEFAULT_LIMIT ∧
    (1 ≤ n → n ≤ 100 → fetchActionLimit (some n) = specClampedLimit (some n)) ∧
    startsOf (fetchTransactions (.ok records)).2 = records.map SigRecord.signature ∧
    ((startsOf (fetchTransactions (.ok records)).2).length : Int)
      ≤ fetchActionLimit (some n) := by
  refine ⟨rfl, rfl, ?_, fetchTransactions_starts records, ?_⟩
  · intro h1 h100
    simp only [fetchActionLimit, specClampedLimit, Option.getD]
    omega
  · rw [fetchTransactions_starts]
    simpa using hhon

/-- Witness for C2 amended at limit 7 with two provider records. -/
theorem fetch_limit_upperClampOnly_witness :
    fetchActionLimit (some 7) = min 7 100 ∧
    startsOf (fetchTransactions (.ok [⟨"A", 1⟩, ⟨"B", 0⟩])).2 = ["A", "B"] :=
  ⟨(fetch_limit_upperClampOnly 7 [⟨"A", 1⟩, ⟨"B", 0⟩] (by decide)).1,
   (fetch_limit_upperClampOnly 7 [⟨"A", 1⟩, ⟨"B", 0⟩] (by decide)).2.2.2.1⟩

/-- C3 counterexample: with the key absent, the first source variant performs
no validation and proceeds to initialize the connection without ever exiting,
while the second variant does exit; the claim fails on the first variant. -/
theorem startup_firstVariant_noExit :
    hasExit (startupV1 none) = false ∧ hasExit (startupV2 none) = true := by
  refine ⟨rfl, rfl⟩

/-- C3 amended: only the second source variant validates the API key: when
the environment variable is absent or empty that variant logs a diagnostic
and exits with status 1 before any provider call, and proceeds when the key
is present; the first variant has no validation and never exits at startup. -/
theorem startup_missingKey_variants (key : Option String) :
    (isMissingKey key = true →
       startupV2 key = [.logDiagnostic, .exitProcess 1] ∧
       StartupStep.providerCall ∉ startupV2 key) ∧
    (isMissingKey key = false → startupV2 key = [.initConnection]) ∧
    hasExit (startupV1 key) = false := by
  refine ⟨?_, ?_, rfl⟩
  · intro h
    have e : startupV2 key = [.logDiagnostic, .exitProcess 1] := by
      simp [startupV2, h]
    exact ⟨e, by rw [e]; decide⟩
  · intro h
    simp [startupV2, h]

/-- Witness for C3 amended with the key absent. -/
theorem startup_missingKey_variants_witness :
    startupV2 none = [.logDiagnostic, .exitProcess 1] ∧
    StartupStep.providerCall ∉ startupV2 none :=
  (startup_missingKey_variants none).1 rfl

/-- C6: a failed signature fetch, whether a network throw or a malformed
body, yields the empty list together with a logged diagnostic instead of
propagating the error; a successful fetch returns exactly the provider
records mapped to their signatures, preserving the provider order position by
position, with length at most the requested limit whenever the provider
honors that limit. -/
theorem signatureFetcher_errorsYieldEmpty (resp : RpcResponse) :
    ((resp = .transportError ∨ resp = .missingResult) →
       fetchRecentTransactionSignatures resp = ([], true)) ∧
    (∀ records, resp = .ok records →
       (fetchRecentTransactionSignatures resp).2 = false ∧
       (fetchRecentTransactionSignatures resp).1.length = records.length ∧
       (∀ k : Nat, (fetchRecentTransactionSignatures resp).1[k]?
          = (records[k]?).map SigRecord.signature) ∧
       (records.length ≤ FETCH_RECENT_LIMIT →
          (fetchRecentTransactionSignatures resp).1.length ≤ FETCH_RECENT_LIMIT)) := by
  constructor
  · rintro (rfl | rfl) <;> rfl
  · rintro records rfl
    refine ⟨rfl, by simp [fetchRecentTransactionSignatures], ?_, ?_⟩
    · intro k
      simp [fetchRecentTransactionSignatures, List.getElem?_map]
    · intro h
      simpa [fetchRecentTransactionSignatures] using h

/-- Witness for C6: a transport error yields the empty list plus a logged
diagnostic, and one provider record stays within the hard-coded limit 1. -/
theorem signatureFetcher_errorsYieldEmpty_witness :
    fetchRecentTransactionSignatures .transportError = ([], true) ∧
    (fetchRecentTransactionSignatures (.ok [⟨"A", 7⟩])).1.length ≤ FETCH_RECENT_LIMIT :=
  ⟨(signatureFetcher_errorsYieldEmpty .transportError).1 (Or.inl rfl),
   ((signatureFetcher_errorsYieldEmpty (.ok [⟨"A", 7⟩])).2 [⟨"A", 7⟩] rfl).2.2.2
     (by decide)⟩
